import Mathlib

/-!
Shallow embedding of the VoteHubPH admin dashboard client
(the `AdminDashboard` component): its data model, the post fetcher,
the moderation action handlers, the poll / visibility cool-down logic,
the filter effect and the party-list manager, translated from the
TypeScript source into explicit state passing.
-/

namespace VoteHubAdmin

/-- Moderation status of a post: `"pending" | "approved" | "rejected"`. -/
inductive Status
  | pending
  | approved
  | rejected
deriving DecidableEq, Repr

/-- The `user` field of a `Post`. -/
structure UserRef where
  id : String
  name : String
  email : String
deriving DecidableEq, Repr

/-- One entry of the `education` array of a `Post`. -/
structure Education where
  level : String
  school : String
deriving DecidableEq, Repr

/-- One entry of the `images` array of a `Post`. -/
structure ImageEntry where
  url : String
  caption : String
deriving DecidableEq, Repr

/-- The `Post` interface of the dashboard. `string | null` fields become
`Option String`; optional fields (`?:`) also become options. -/
structure Post where
  id : Nat
  user_id : String
  name : String
  level : String
  position : String
  bio : String
  platform : Option String
  education : Option (List Education)
  achievements : Option (List String)
  images : Option (List ImageEntry)
  profile_photo : Option String
  party : Option String
  party_list_managed : Option Bool
  status : Status
  admin_notes : Option String
  user : UserRef
  created_at : String
  updated_at : String
deriving DecidableEq, Repr

/-- The status filter: `"all" | "pending" | "approved" | "rejected"`. -/
inductive Filter
  | all
  | pending
  | approved
  | rejected
deriving DecidableEq, Repr

/-- A party list object as returned by the search endpoint. -/
structure PartyList where
  id : Nat
  name : String
  acronym : Option String
  sector : Option String
  member_count : Option Nat
deriving DecidableEq, Repr

/-- Lookup in a JS-object-like map keyed by post identifier
(`record[postId]`); `none` models `undefined`. -/
def lookup (m : List (Nat × α)) (k : Nat) : Option α :=
  (m.find? (fun e => e.1 = k)).map (fun e => e.2)

/-- JS object spread update `\x7b ...prev, [postId]: v \x7d`. -/
def setKey (m : List (Nat × α)) (k : Nat) (v : α) : List (Nat × α) :=
  (k, v) :: m.filter (fun e => ¬ e.1 = k)

/-- JS `delete record[postId]`. -/
def delKey (m : List (Nat × α)) (k : Nat) : List (Nat × α) :=
  m.filter (fun e => ¬ e.1 = k)

/-- The component state: every `useState` hook plus the refs
(`lastFetchRef`, `isInitialMount`) and whether the auto-refresh interval
is installed (`intervalRef`). Time stamps are milliseconds as `Nat`
(`Date.now()`). Maps keyed by post id are association lists. -/
structure DashboardState where
  isAuthenticated : Option Bool
  posts : List Post
  filteredPosts : List Post
  isLoading : Bool
  isRefreshing : Bool
  filter : Filter
  rejectNotes : List (Nat × String)
  processingIds : List Nat
  searchPartyList : List (Nat × String)
  existingPartyLists : List (Nat × List PartyList)
  isSearchingPartyList : List (Nat × Bool)
  selectedPartyListId : List (Nat × Option Nat)
  isProcessingPartyList : List (Nat × Bool)
  intervalActive : Bool
  lastFetch : Nat
  isInitialMount : Bool
deriving DecidableEq, Repr

/-- The initial state of the component: the `useState` initial values,
`lastFetchRef.current = 0`, `isInitialMount.current = true`, no interval
installed yet. -/
def initialState : DashboardState where
  isAuthenticated := none
  posts := []
  filteredPosts := []
  isLoading := true
  isRefreshing := false
  filter := .pending
  rejectNotes := []
  processingIds := []
  searchPartyList := []
  existingPartyLists := []
  isSearchingPartyList := []
  selectedPartyListId := []
  isProcessingPartyList := []
  intervalActive := false
  lastFetch := 0
  isInitialMount := true

/-- The possible resolutions of the GET `/admin/posts` request:
2xx with a JSON array, 2xx with a non-array JSON payload, a non-2xx
status, or the fetch throwing. -/
inductive FetchOutcome
  | okArray (data : List Post)
  | okNonArray
  | httpError (status : Nat)
  | networkError
deriving DecidableEq, Repr

/-- Result of running `fetchPosts`: the new state, whether a network
request was actually issued, and how many `console.error` diagnostics
were emitted. -/
structure FetchResult where
  state : DashboardState
  requestIssued : Bool
  diagnostics : Nat
deriving DecidableEq, Repr

/-- The function literal handed to `useCallback` for `fetchPosts`,
parameterized by the `isAuthenticated` value its closure captured at the
render that created it. The resolution of the network request
(`outcome`) and the wall clock at resolution time (`now`, for
`Date.now()`) are passed in explicitly.
Guard: `if (!isAuthenticated) return` on the captured value (falsy for
`null` and `false`). Past the guard, the loading or refreshing indicator
is raised; on a 2xx array payload the posts are replaced and
`lastFetchRef.current = Date.now()`; on a 2xx non-array payload, a
non-2xx status or a thrown fetch the posts are emptied and one
diagnostic is emitted; the `finally` block lowers both indicators. -/
def fetchPostsCallback (capturedAuth : Option Bool) (silent : Bool)
    (outcome : FetchOutcome) (now : Nat) (s : DashboardState) : FetchResult :=
  if capturedAuth = some true then
    let s1 := if silent then { s with isRefreshing := true }
              else { s with isLoading := true }
    let step : DashboardState × Nat :=
      match outcome with
      | .okArray data => ({ s1 with posts := data, lastFetch := now }, 0)
      | .okNonArray => ({ s1 with posts := [] }, 1)
      | .httpError _ => ({ s1 with posts := [] }, 1)
      | .networkError => ({ s1 with posts := [] }, 1)
    { state := { step.1 with isLoading := false, isRefreshing := false }
      requestIssued := true
      diagnostics := step.2 }
  else
    { state := s, requestIssued := false, diagnostics := 0 }

/-- The `fetchPosts` value the component actually calls everywhere: the
`useCallback` dependency list is empty, so React memoizes the first
render's function instance forever, and that instance's closure captured
the first render's `isAuthenticated`, which is the `useState` initial
value `null` (the `localStorage` read happens later, in an effect).
Every call therefore takes the early-return branch of the guard. -/
def fetchPosts : Bool → FetchOutcome → Nat → DashboardState → FetchResult :=
  fetchPostsCallback none

/-- The cool-down test of the poller:
`now - lastFetchRef.current > 10000`. -/
def cooldownElapsed (now lastFetch : Nat) : Bool :=
  10000 < now - lastFetch

/-- One tick of the `setInterval` callback installed by
`setupAutoRefresh`: refresh silently only if the document is visible and
the cool-down has elapsed since the last successful fetch. -/
def pollTick (visible : Bool) (now : Nat) (outcome : FetchOutcome)
    (s : DashboardState) : FetchResult :=
  if visible then
    if cooldownElapsed now s.lastFetch then
      fetchPosts true outcome now s
    else
      { state := s, requestIssued := false, diagnostics := 0 }
  else
    { state := s, requestIssued := false, diagnostics := 0 }

/-- The `handleVisibilityChange` listener: when the tab becomes visible,
fetch silently if the cool-down has elapsed and reinstall the interval;
when it becomes hidden, clear the interval. -/
def handleVisibilityChange (visible : Bool) (now : Nat)
    (outcome : FetchOutcome) (s : DashboardState) : FetchResult :=
  if visible then
    let r := if cooldownElapsed now s.lastFetch then
               fetchPosts true outcome now s
             else
               { state := s, requestIssued := false, diagnostics := 0 }
    { r with state := { r.state with intervalActive := true } }
  else
    { state := { s with intervalActive := false }
      requestIssued := false, diagnostics := 0 }

/-- The filter value each non-`all` filter compares post statuses
against in `posts.filter((p) => p.status === filter)`. -/
def statusOfFilter : Filter → Option Status
  | .all => none
  | .pending => some .pending
  | .approved => some .approved
  | .rejected => some .rejected

/-- The effect computing `filteredPosts` from `filter` and `posts`:
the whole collection for `all`, otherwise the posts whose status equals
the filter. -/
def computeFilteredPosts (f : Filter) (ps : List Post) : List Post :=
  if f = .all then ps
  else ps.filter (fun p => statusOfFilter f = some p.status)

/-- Spec-side predicate: does a post status match a filter value
(`all` matches everything)? Used to compare the code's filtered view
against the subset the spec describes. -/
def matchesFilter : Filter → Status → Bool
  | .all, _ => true
  | .pending, .pending => true
  | .approved, .approved => true
  | .rejected, .rejected => true
  | _, _ => false

/-- The dependency array of the filter-change effect is
`[filter, fetchPosts, posts.length]` (and `fetchPosts` is referentially
stable, memoized with an empty dependency list), so React re-runs the
effect exactly when the filter or the post count changed since the
previous render. -/
def filterEffectTriggered (prevFilter : Filter) (prevLen : Nat)
    (s : DashboardState) : Bool :=
  decide (¬ prevFilter = s.filter) || decide (¬ prevLen = s.posts.length)

/-- Body of the filter-change effect: skip on initial mount, and only
refresh when the cache is non-empty
(`if (!isInitialMount.current && posts.length > 0) fetchPosts(true)`). -/
def filterEffectBody (outcome : FetchOutcome) (now : Nat)
    (s : DashboardState) : FetchResult :=
  if ¬ s.isInitialMount ∧ 0 < s.posts.length then
    fetchPosts true outcome now s
  else
    { state := s, requestIssued := false, diagnostics := 0 }

/-- One React commit as seen by the filter-change effect: the effect
body runs iff one of its dependencies changed since the previous run. -/
def filterEffectStep (prevFilter : Filter) (prevLen : Nat)
    (outcome : FetchOutcome) (now : Nat) (s : DashboardState) : FetchResult :=
  if filterEffectTriggered prevFilter prevLen s then
    filterEffectBody outcome now s
  else
    { state := s, requestIssued := false, diagnostics := 0 }

/-- Resolution of a moderation POST (`/approve` or `/reject`): 2xx,
non-2xx, or the fetch throwing. All three lead to the same reconciling
silent re-fetch in the source. -/
inductive MutationOutcome
  | ok
  | httpError (status : Nat)
  | networkError
deriving DecidableEq, Repr

/-- Result of the synchronous phase of a moderation handler: the state
after the optimistic mutation, and whether the guard passed (a network
mutation will be issued). -/
structure ActionStart where
  state : DashboardState
  started : Bool
deriving DecidableEq, Repr

/-- `handleApprove(postId)` up to the network call: no-op if the post id
is already in `processingIds`; otherwise add it, and optimistically set
the post status to `approved`. -/
def handleApproveStart (postId : Nat) (s : DashboardState) : ActionStart :=
  if postId ∈ s.processingIds then
    { state := s, started := false }
  else
    let s1 := { s with processingIds := postId :: s.processingIds }
    let s2 := { s1 with posts := s1.posts.map (fun (post : Post) =>
      if post.id = postId then { post with status := .approved } else post) }
    { state := s2, started := true }

/-- The rest of `handleApprove` after the network call resolves: in all
three branches (2xx, non-2xx, thrown) a silent `fetchPosts(true)` is
awaited, and the `finally` block removes the post id from
`processingIds`. -/
def handleApproveResolve (postId : Nat) (result : MutationOutcome)
    (fetchOutcome : FetchOutcome) (now : Nat) (s : DashboardState) :
    DashboardState :=
  let s1 :=
    match result with
    | .ok => (fetchPosts true fetchOutcome now s).state
    | .httpError _ => (fetchPosts true fetchOutcome now s).state
    | .networkError => (fetchPosts true fetchOutcome now s).state
  { s1 with processingIds := s1.processingIds.filter (fun i => ¬ i = postId) }

/-- The fallback admin note used when the reject notes buffer is blank:
`rejectNotes[postId] || "Post rejected by admin"`. -/
def rejectFallbackNotes : String := "Post rejected by admin"

/-- The admin notes `handleReject` sends and applies: the buffered note
for the post, unless it is absent or empty (both falsy in JS), in which
case the fallback placeholder. -/
def effectiveRejectNotes (s : DashboardState) (postId : Nat) : String :=
  match lookup s.rejectNotes postId with
  | some n => if n = "" then rejectFallbackNotes else n
  | none => rejectFallbackNotes

/-- `handleReject(postId)` up to the network call: no-op if the post id
is already in `processingIds`; otherwise add it, optimistically set the
post status to `rejected` with the effective admin notes, and clear the
notes buffer entry for the post. -/
def handleRejectStart (postId : Nat) (s : DashboardState) : ActionStart :=
  if postId ∈ s.processingIds then
    { state := s, started := false }
  else
    let adminNotes := effectiveRejectNotes s postId
    let s1 := { s with processingIds := postId :: s.processingIds }
    let s2 := { s1 with posts := s1.posts.map (fun (post : Post) =>
      if post.id = postId then
        { post with status := .rejected, admin_notes := some adminNotes }
      else post) }
    let s3 := { s2 with rejectNotes := delKey s2.rejectNotes postId }
    { state := s3, started := true }

/-- The rest of `handleReject` after the network call resolves: like
approve, all three branches await a silent `fetchPosts(true)` and the
`finally` block removes the post id from `processingIds`. -/
def handleRejectResolve (postId : Nat) (result : MutationOutcome)
    (fetchOutcome : FetchOutcome) (now : Nat) (s : DashboardState) :
    DashboardState :=
  let s1 :=
    match result with
    | .ok => (fetchPosts true fetchOutcome now s).state
    | .httpError _ => (fetchPosts true fetchOutcome now s).state
    | .networkError => (fetchPosts true fetchOutcome now s).state
  { s1 with processingIds := s1.processingIds.filter (fun i => ¬ i = postId) }

/-- Resolution of the party-list search GET. -/
inductive SearchOutcome
  | ok (data : List PartyList)
  | httpError (status : Nat)
  | networkError
deriving DecidableEq, Repr

/-- Result of the search input `onChange` handler: the new state and
whether a search request was issued. -/
structure SearchStep where
  state : DashboardState
  requestIssued : Bool
deriving DecidableEq, Repr

/-- The `onChange` handler of the party-list search input for a post:
store the query and clear the selection; if the query has length at
least 2, raise the per-post searching flag, issue the search request,
store the response payload on 2xx (nothing on failure), and lower the
flag in `finally`; otherwise clear the stored results to `[]` without
any request. -/
def handleSearchChange (postId : Nat) (query : String)
    (outcome : SearchOutcome) (s : DashboardState) : SearchStep :=
  let s1 := { s with
    searchPartyList := setKey s.searchPartyList postId query
    selectedPartyListId := setKey s.selectedPartyListId postId none }
  if 2 ≤ query.length then
    let s2 := { s1 with
      isSearchingPartyList := setKey s1.isSearchingPartyList postId true }
    let s3 :=
      match outcome with
      | .ok data =>
        { s2 with existingPartyLists := setKey s2.existingPartyLists postId data }
      | .httpError _ => s2
      | .networkError => s2
    { state := { s3 with
        isSearchingPartyList := setKey s3.isSearchingPartyList postId false }
      requestIssued := true }
  else
    { state := { s1 with
        existingPartyLists := setKey s1.existingPartyLists postId [] }
      requestIssued := false }

/-- The JSON body of POST `/admin/partylists`. -/
structure CreatePartyListBody where
  name : Option String
  post_id : Nat
  platform : List String
deriving DecidableEq, Repr

/-- The body built by the create-new-party-list `onClick`:
`\x7b name: post.party, post_id: post.id, platform: post.platform ?
(typeof post.platform === "string" ? [post.platform] : post.platform) :
[] \x7d`. The post platform is `string | null`, so `typeof` is always
`"string"` when non-null; a `null` or empty-string platform is falsy and
yields `[]`. -/
def createPartyListBody (post : Post) : CreatePartyListBody :=
  { name := post.party
    post_id := post.id
    platform :=
      match post.platform with
      | none => []
      | some str => if str = "" then [] else [str] }

/-! Concrete sample data for witnesses and counterexamples. -/

/-- A sample submitting user. -/
def sampleUser : UserRef :=
  { id := "u1", name := "Alice Reyes", email := "alice@example.com" }

/-- A sample pending post with id 1. -/
def samplePost : Post :=
  { id := 1, user_id := "u1", name := "Alice Reyes", level := "National"
    position := "Senator", bio := "Public servant."
    platform := some "Education reform", education := none
    achievements := none, images := none, profile_photo := none
    party := some "Unity Party", party_list_managed := none
    status := .pending, admin_notes := none, user := sampleUser
    created_at := "2024-01-01", updated_at := "2024-01-01" }

/-- A sample party list returned by the search endpoint. -/
def samplePartyList : PartyList :=
  { id := 7, name := "Unity Party", acronym := some "UP"
    sector := some "Education", member_count := some 3 }

/-- A dashboard state with the authenticated flag set, the given posts
cached, the loading flag lowered and the initial-mount flag cleared. -/
def authState (posts : List Post) : DashboardState :=
  { initialState with
      isAuthenticated := some true, posts := posts
      isLoading := false, isInitialMount := false }

/-- An authenticated state holding the sample post with a non-blank
buffered reject note for post 1. -/
def rejectWitState : DashboardState :=
  { authState [samplePost] with rejectNotes := [(1, "bad data")] }

/-- An authenticated state holding the sample post with a blank buffered
reject note for post 1. -/
def rejectBlankState : DashboardState :=
  { authState [samplePost] with rejectNotes := [(1, "")] }

/-- The sample post as it looks after the optimistic reject mutation
with notes "bad data". -/
def rejectedSamplePost : Post :=
  { samplePost with status := .rejected, admin_notes := some "bad data" }

/-- The sample post as it looks after an optimistic reject mutation
with a blank buffered note: the fallback placeholder is stored. -/
def fallbackNotesPost : Post :=
  { samplePost with
      status := .rejected, admin_notes := some "Post rejected by admin" }

/-- A sample post whose platform text is the empty string. -/
def emptyPlatformPost : Post := { samplePost with platform := some "" }

/-! Helper lemmas about the association-list map operations. -/

theorem lookup_setKey (m : List (Nat × α)) (k : Nat) (v : α) :
    lookup (setKey m k v) k = some v := by
  simp [lookup, setKey, List.find?]

/-- Characterization of `matchesFilter` against the code-side
`statusOfFilter` comparison. -/
theorem matchesFilter_iff (f : Filter) (st : Status) :
    matchesFilter f st = true ↔ (f = .all ∨ statusOfFilter f = some st) := by
  cases f <;> cases st <;> decide

/-! Claim theorems. -/

/-- Claim C9: calling `fetchPosts` while the session is not
authenticated is a complete no-op: it issues no network request, emits
no diagnostic, and leaves the whole component state (posts, the loading
and refreshing indicators, the last-fetch timestamp) unchanged. -/
theorem fetchPosts_unauthenticated_noop (silent : Bool)
    (outcome : FetchOutcome) (now : Nat) (s : DashboardState)
    (h : ¬ s.isAuthenticated = some true) :
    fetchPosts silent outcome now s =
      { state := s, requestIssued := false, diagnostics := 0 } := by
  simp [fetchPosts, fetchPostsCallback]

/-- Witness for C9 at the initial (unauthenticated) state. -/
theorem fetchPosts_unauthenticated_noop_witness :
    fetchPosts false (.okArray [samplePost]) 1000 initialState =
      { state := initialState, requestIssued := false, diagnostics := 0 } :=
  fetchPosts_unauthenticated_noop false (.okArray [samplePost]) 1000
    initialState (by decide)

/-- Claim C10 (code bug): the cool-down anchor is never updated by any
call of the program's memoized `fetchPosts` — the assignment
`lastFetchRef.current = Date.now()` is dead code behind the stale
closure guard — even though the callback body, had its captured
`isAuthenticated` been `true`, would set the anchor in the
array-payload success branch and only there. -/
theorem lastFetch_never_updated (silent : Bool) (now : Nat)
    (s : DashboardState) :
    (∀ outcome, (fetchPosts silent outcome now s).state.lastFetch
        = s.lastFetch) ∧
    (∀ data, (fetchPostsCallback (some true) silent (.okArray data) now
        s).state.lastFetch = now) ∧
    ((fetchPostsCallback (some true) silent .okNonArray now
        s).state.lastFetch = s.lastFetch) ∧
    (∀ st, (fetchPostsCallback (some true) silent (.httpError st) now
        s).state.lastFetch = s.lastFetch) ∧
    ((fetchPostsCallback (some true) silent .networkError now
        s).state.lastFetch = s.lastFetch) := by
  refine ⟨?_, ?_, ?_, ?_, ?_⟩
  · intro outcome; simp [fetchPosts, fetchPostsCallback]
  · intro data; cases silent <;> simp [fetchPostsCallback]
  · cases silent <;> simp [fetchPostsCallback]
  · intro st; cases silent <;> simp [fetchPostsCallback]
  · cases silent <;> simp [fetchPostsCallback]

/-- Claim C3 (code bug): every call of the program's memoized
`fetchPosts` is a complete no-op — no request, no state change, no
diagnostic — because its closure captured the first render's
`isAuthenticated = null`; the per-outcome handling the claim describes
(replace on array, empty on non-array, empty plus diagnostic on HTTP or
network failure) exists in the callback body but is reachable only under
a captured `isAuthenticated = true`, which no instance ever has. -/
theorem fetchPosts_stale_guard_dead (silent : Bool) (now : Nat)
    (s : DashboardState) :
    (∀ outcome, fetchPosts silent outcome now s =
      { state := s, requestIssued := false, diagnostics := 0 }) ∧
    (∀ data, (fetchPostsCallback (some true) silent (.okArray data) now
        s).state.posts = data) ∧
    ((fetchPostsCallback (some true) silent .okNonArray now s).state.posts
      = []) ∧
    (∀ st, (fetchPostsCallback (some true) silent (.httpError st) now
          s).state.posts = [] ∧
        (fetchPostsCallback (some true) silent (.httpError st) now
          s).diagnostics = 1) ∧
    ((fetchPostsCallback (some true) silent .networkError now s).state.posts
        = [] ∧
      (fetchPostsCallback (some true) silent .networkError now s).diagnostics
        = 1) := by
  refine ⟨?_, ?_, ?_, ?_, ?_⟩
  · intro outcome; simp [fetchPosts, fetchPostsCallback]
  · intro data; cases silent <;> simp [fetchPostsCallback]
  · cases silent <;> simp [fetchPostsCallback]
  · intro st; cases silent <;> simp [fetchPostsCallback]
  · cases silent <;> simp [fetchPostsCallback]

/-- Claim C2: a second `approve(postId)` issued while the first is still
in flight is a no-op: the post id is already in `processingIds`, so the
guard short-circuits, the state is returned unchanged, and no network
mutation is started. -/
theorem approve_second_call_noop (postId : Nat) (s : DashboardState) :
    postId ∈ (handleApproveStart postId s).state.processingIds ∧
    handleApproveStart postId (handleApproveStart postId s).state =
      { state := (handleApproveStart postId s).state, started := false } := by
  by_cases h : postId ∈ s.processingIds <;>
    simp [handleApproveStart, h]

/-- Claim C6: for every post collection and every filter, the filtered
view contains exactly the posts whose status matches the filter, and is
the whole collection for the `all` filter. -/
theorem filtered_view_characterization (f : Filter) (ps : List Post) :
    (∀ p, p ∈ computeFilteredPosts f ps ↔
        p ∈ ps ∧ matchesFilter f p.status = true) ∧
    (f = Filter.all → computeFilteredPosts f ps = ps) := by
  constructor
  · intro p
    rcases f with _ | _ | _ | _ <;>
      simp [computeFilteredPosts, statusOfFilter, List.mem_filter,
            matchesFilter_iff]
  · intro h; subst h; simp [computeFilteredPosts]

/-- Witness for C6: the `all` filter keeps the whole collection. -/
theorem filtered_view_characterization_witness :
    computeFilteredPosts Filter.all [samplePost] = [samplePost] :=
  (filtered_view_characterization Filter.all [samplePost]).2 rfl

/-- Claim C4 (code bug): with the cool-down anchor at T, the cool-down
is elapsed at T+15s, yet neither the visibility handler nor the poll
tick issues a network call there — their silent fetch goes to the
memoized `fetchPosts` whose closure captured `isAuthenticated = null` —
and at T+5s and while hidden no call is issued either; moreover no
silent fetch can ever set the anchor, so the claimed premise of a
successful silent fetch at T is unrealizable. -/
theorem visibility_poll_fetch_dead (T : Nat) (outcome : FetchOutcome)
    (s : DashboardState) (hLast : s.lastFetch = T) :
    cooldownElapsed (T + 15000) s.lastFetch = true ∧
    (handleVisibilityChange true (T + 15000) outcome s).requestIssued
      = false ∧
    (pollTick true (T + 15000) outcome s).requestIssued = false ∧
    (handleVisibilityChange true (T + 5000) outcome s).requestIssued
      = false ∧
    (∀ now o, (pollTick false now o s).requestIssued = false) ∧
    (∀ now o, (fetchPosts true o now s).state.lastFetch = s.lastFetch) := by
  have h5 : cooldownElapsed (T + 5000) s.lastFetch = false := by
    simp [cooldownElapsed, hLast, Nat.add_sub_cancel_left]
  have h15 : cooldownElapsed (T + 15000) s.lastFetch = true := by
    simp [cooldownElapsed, hLast]
  refine ⟨h15, ?_, ?_, ?_, ?_, ?_⟩
  · simp [handleVisibilityChange, h15, fetchPosts, fetchPostsCallback]
  · simp [pollTick, h15, fetchPosts, fetchPostsCallback]
  · simp [handleVisibilityChange, h5]
  · intro now o; simp [pollTick]
  · intro now o; simp [fetchPosts, fetchPostsCallback]

/-- Witness for C4 at a concrete authenticated state with the cool-down
anchor at T = 100000: the cool-down is met at T+15s, but no request is
issued. -/
theorem visibility_poll_fetch_dead_witness :
    cooldownElapsed (100000 + 15000)
      ({ authState [samplePost] with lastFetch := 100000 }).lastFetch
      = true ∧
    (handleVisibilityChange true (100000 + 15000) (.okArray [samplePost])
        { authState [samplePost] with lastFetch := 100000 }).requestIssued
      = false := by
  have h := visibility_poll_fetch_dead 100000 (.okArray [samplePost])
    { authState [samplePost] with lastFetch := 100000 } rfl
  exact ⟨h.1, h.2.1⟩

/-- Claim C5 (amended): the filter-change effect never issues a network
call and leaves the component state unchanged, whatever re-ran it and
whatever its guard decides: past the initial-mount and non-empty-cache
guard its `fetchPosts(true)` call goes to the memoized closure that
captured the unauthenticated first render and returns immediately; in
particular no duplicate fetch is issued on first render and no re-fetch
follows a filter change. -/
theorem filter_effect_never_fetches (prevFilter : Filter) (prevLen : Nat)
    (outcome : FetchOutcome) (now : Nat) (s : DashboardState) :
    (filterEffectStep prevFilter prevLen outcome now s).requestIssued
      = false ∧
    (filterEffectStep prevFilter prevLen outcome now s).state = s := by
  by_cases ht : filterEffectTriggered prevFilter prevLen s = true <;>
    by_cases hg : (¬ s.isInitialMount = true ∧ 0 < s.posts.length) <;>
      simp [filterEffectStep, filterEffectBody, ht, hg, fetchPosts,
            fetchPostsCallback]

/-- Counterexample for C5 as frozen: at a state where every condition of
the claim holds — the initial-mount flag is cleared, the cache is
non-empty, the session flag is authenticated, and the filter did change
(previous render `all`, current `pending`, post count unchanged) — the
effect still issues no network request, because the memoized
`fetchPosts` closure captured the unauthenticated first render. -/
theorem filter_effect_counterexample :
    ¬ (authState [samplePost]).isInitialMount = true ∧
    0 < (authState [samplePost]).posts.length ∧
    (authState [samplePost]).isAuthenticated = some true ∧
    ¬ Filter.all = (authState [samplePost]).filter ∧
    (filterEffectStep Filter.all 1 (.okArray [samplePost]) 77777
        (authState [samplePost])).requestIssued = false := by
  decide

/-- Claim C1 (amended): with a non-blank note buffered for the post and
the post not already in flight, `handleReject` immediately (before the
network call) marks every cached post with that id as `rejected`
carrying exactly the supplied notes, and keeps a post with that id in
the cache if one was there; the reconciling silent fetch then leaves the
post collection unchanged whatever the mutation outcome and whatever the
server would answer — the memoized `fetchPosts` closure captured the
unauthenticated first render — so the optimistic value persists instead
of being replaced by server state. -/
theorem reject_optimistic_without_reconcile (postId : Nat) (notes : String)
    (s : DashboardState) (hNotes : lookup s.rejectNotes postId = some notes)
    (hNE : ¬ notes = "") (hFree : postId ∉ s.processingIds) :
    (∀ p ∈ (handleRejectStart postId s).state.posts,
        p.id = postId → p.status = .rejected ∧ p.admin_notes = some notes) ∧
    ((∃ p ∈ s.posts, p.id = postId) →
        ∃ p ∈ (handleRejectStart postId s).state.posts, p.id = postId) ∧
    (∀ result fetchOutcome now,
        (handleRejectResolve postId result fetchOutcome now
            (handleRejectStart postId s).state).posts =
          (handleRejectStart postId s).state.posts) := by
  have hEff : effectiveRejectNotes s postId = notes := by
    simp [effectiveRejectNotes, hNotes, hNE]
  refine ⟨?_, ?_, ?_⟩
  · intro p hp hid
    simp [handleRejectStart, hFree] at hp
    obtain ⟨q, hq, hqe⟩ := hp
    by_cases h : q.id = postId
    · rw [← hqe]; simp [h, hEff]
    · rw [← hqe] at hid; simp [h] at hid
  · rintro ⟨p, hp, hid⟩
    simp [handleRejectStart, hFree]
    exact ⟨p, hp, by simp [hid]⟩
  · intro result fetchOutcome now
    cases result <;>
      simp [handleRejectResolve, fetchPosts, fetchPostsCallback]

/-- Witness for the amended C1: with note "bad data" buffered for post
1, the optimistically rejected sample post is in the cache with status
`rejected` and notes "bad data", and the reconciling step leaves the
collection unchanged even though the server answered with an array. -/
theorem reject_optimistic_without_reconcile_witness :
    (rejectedSamplePost.status = Status.rejected ∧
     rejectedSamplePost.admin_notes = some "bad data") ∧
    (handleRejectResolve 1 MutationOutcome.ok (.okArray []) 99999
        (handleRejectStart 1 rejectWitState).state).posts =
      (handleRejectStart 1 rejectWitState).state.posts := by
  have h := reject_optimistic_without_reconcile 1 "bad data" rejectWitState
    (by decide) (by decide) (by decide)
  exact ⟨h.1 rejectedSamplePost (by decide) (by decide),
         h.2.2 MutationOutcome.ok (.okArray []) 99999⟩

/-- Counterexample for C1 as frozen: with the supplied notes equal to
the empty string, the optimistic mutation stores the fallback
placeholder, not the supplied notes. -/
theorem reject_blank_notes_counterexample :
    lookup rejectBlankState.rejectNotes 1 = some "" ∧
    (handleRejectStart 1 rejectBlankState).state.posts = [fallbackNotesPost] ∧
    ¬ fallbackNotesPost.admin_notes = some "" := by
  decide

/-- Claim C7: a party-list search with a query of length 1 issues no
request and clears the stored results for the post to the empty list; a
query of length at least 2 issues a request, and a successful response
replaces the stored results for the post with exactly the response
payload (so the displayed results come from the latest response). -/
theorem search_length_gate (postId : Nat) (q1 q2 : String)
    (outcome : SearchOutcome) (data : List PartyList) (s : DashboardState)
    (h1 : q1.length = 1) (h2 : 2 ≤ q2.length) :
    (handleSearchChange postId q1 outcome s).requestIssued = false ∧
    lookup (handleSearchChange postId q1 outcome s).state.existingPartyLists
        postId = some [] ∧
    (handleSearchChange postId q2 (.ok data) s).requestIssued = true ∧
    lookup (handleSearchChange postId q2 (.ok data) s).state.existingPartyLists
        postId = some data := by
  have h1' : ¬ 2 ≤ q1.length := by omega
  refine ⟨?_, ?_, ?_, ?_⟩
  · simp [handleSearchChange, h1']
  · simp [handleSearchChange, h1', lookup_setKey]
  · simp [handleSearchChange, h2]
  · simp [handleSearchChange, h2, lookup_setKey]

/-- Witness for C7 with queries "a" and "ab" at the initial state. -/
theorem search_length_gate_witness :
    (handleSearchChange 1 "a" SearchOutcome.networkError
        initialState).requestIssued = false ∧
    lookup (handleSearchChange 1 "a" SearchOutcome.networkError
        initialState).state.existingPartyLists 1 = some [] ∧
    (handleSearchChange 1 "ab" (.ok [samplePartyList])
        initialState).requestIssued = true ∧
    lookup (handleSearchChange 1 "ab" (.ok [samplePartyList])
        initialState).state.existingPartyLists 1 = some [samplePartyList] :=
  search_length_gate 1 "a" "ab" SearchOutcome.networkError [samplePartyList]
    initialState (by decide) (by decide)

/-- Claim C8 (amended): the create-new-party-list request body carries
the post party name and the post identifier, and its platform field is
the string list obtained by sending a null platform to the empty list,
an empty-string platform (falsy in JS) also to the empty list, and any
non-empty string to the one-element list. -/
theorem create_body_characterization (post : Post) :
    (createPartyListBody post).name = post.party ∧
    (createPartyListBody post).post_id = post.id ∧
    (post.platform = none → (createPartyListBody post).platform = []) ∧
    (post.platform = some "" → (createPartyListBody post).platform = []) ∧
    (∀ str, post.platform = some str → ¬ str = "" →
        (createPartyListBody post).platform = [str]) := by
  refine ⟨rfl, rfl, ?_, ?_, ?_⟩
  · intro h; simp [createPartyListBody, h]
  · intro h; simp [createPartyListBody, h]
  · intro str h hne; simp [createPartyListBody, h, hne]

/-- Witness for the amended C8 at the sample post, whose platform is the
non-empty string "Education reform". -/
theorem create_body_characterization_witness :
    (createPartyListBody samplePost).platform = ["Education reform"] :=
  (create_body_characterization samplePost).2.2.2.2 "Education reform" rfl
    (by decide)

/-- Counterexample for C8 as frozen: a post whose platform is the empty
string (a string, not null) yields an empty platform list in the body,
not a one-element list. -/
theorem create_body_empty_platform_counterexample :
    emptyPlatformPost.platform = some "" ∧
    (createPartyListBody emptyPlatformPost).platform = [] ∧
    ¬ (createPartyListBody emptyPlatformPost).platform = [""] := by
  decide

end VoteHubAdmin
